import Mathlib

/-!
Verification of the instrumental-variables notebook (Colombia school-voucher
lottery analysis).  The notebook defines two helper functions,
`coefficient_to_odds_ratio` and `ate_odds_ratio`, loads an observation table
`voucher_df`, prints descriptive statistics, computes an unconditional average
treatment effect, and fits a naive logistic regression and a two-stage IV
estimator, storing the stage-1 fitted probabilities in a derived column
`use_fin_aid_fitted`.

Numbers are modelled exactly: the rational arithmetic of the helpers over `ℚ`,
and the transcendental `math.exp` over `ℝ`.  Python `None` is modelled as
`Option.none`; a raised `ZeroDivisionError` as an `Except.error`.
-/

namespace IVNotebook

/-- Outcome of a call to one of the notebook helper functions: the value the
Python function returns (`none` models Python `None`), together with the
numeric payload of each message the body prints to standard output, in order. -/
structure PyResult (α : Type) where
  ret : Option α
  printed : List α
  deriving DecidableEq

/-- Runtime errors a helper body can raise. -/
inductive PyError where
  | zeroDivisionError
  deriving DecidableEq

/-- Python division: raises `ZeroDivisionError` on a zero denominator instead
of silently producing an infinity or NaN. -/
def pydiv (a b : ℚ) : Except PyError ℚ :=
  if b = 0 then Except.error PyError.zeroDivisionError else Except.ok (a / b)

/-- Embedding of the notebook helper `ate_odds_ratio(prob0, prob1)`:
its body computes `odds = (prob1/(1-prob1)) - (prob0/(1-prob0))`
(the two divisions evaluated left to right), prints the odds value, and
returns `None`. -/
def ate_odds_ratio (prob0 prob1 : ℚ) : Except PyError (PyResult ℚ) :=
  (pydiv prob1 (1 - prob1)).bind fun oddsT =>
    (pydiv prob0 (1 - prob0)).bind fun oddsC =>
      Except.ok { ret := none, printed := [oddsT - oddsC] }

/-- The odds value a successful `ate_odds_ratio` call prints (0 if the call
raised instead). -/
def printedOdds (r : Except PyError (PyResult ℚ)) : ℚ :=
  match r with
  | Except.ok res => res.printed.headI
  | Except.error _ => 0

/-- C1: for every pair of probabilities p0, p1 in the open interval (0,1), the
call `ate_odds_ratio p0 p1` succeeds, returns `None`, and the odds value it
computes and prints equals `p1/(1-p1) - p0/(1-p0)`. -/
theorem ate_odds_ratio_formula (p0 p1 : ℚ) (h00 : 0 < p0) (h01 : p0 < 1)
    (h10 : 0 < p1) (h11 : p1 < 1) :
    ate_odds_ratio p0 p1 =
      Except.ok { ret := none, printed := [p1 / (1 - p1) - p0 / (1 - p0)] } := by
  have h1 : (1 - p1) ≠ 0 := sub_ne_zero.mpr (ne_of_gt h11)
  have h0 : (1 - p0) ≠ 0 := sub_ne_zero.mpr (ne_of_gt h01)
  simp [ate_odds_ratio, pydiv, h1, h0, Except.bind]

/-- Witness for C1 at the concrete input p0 = 1/4, p1 = 1/2. -/
theorem ate_odds_ratio_formula_witness :
    ate_odds_ratio (1/4) (1/2) =
      Except.ok { ret := none
                  printed := [(1/2 : ℚ) / (1 - 1/2) - (1/4 : ℚ) / (1 - 1/4)] } :=
  ate_odds_ratio_formula (1/4) (1/2) (by norm_num) (by norm_num)
    (by norm_num) (by norm_num)

/-- C2: `ate_odds_ratio` raises `ZeroDivisionError` whenever either input
probability equals 1; it does not silently produce an infinity or NaN. -/
theorem ate_odds_ratio_div_by_zero (p0 p1 : ℚ) (h : p0 = 1 ∨ p1 = 1) :
    ate_odds_ratio p0 p1 = Except.error PyError.zeroDivisionError := by
  rcases h with h | h
  · subst h
    by_cases h1 : (1 - p1) = 0 <;>
      simp [ate_odds_ratio, pydiv, h1, Except.bind]
  · subst h
    simp [ate_odds_ratio, pydiv, Except.bind]

/-- Witness for C2 at the concrete input p0 = 1, p1 = 1/2. -/
theorem ate_odds_ratio_div_by_zero_witness :
    ate_odds_ratio 1 (1/2) = Except.error PyError.zeroDivisionError :=
  ate_odds_ratio_div_by_zero 1 (1/2) (Or.inl rfl)

/-- The odds value computed inside `coefficient_to_odds_ratio` (the local
variable `odds = math.exp(coefficient)`). -/
noncomputable def coefficient_odds (coefficient : ℝ) : ℝ := Real.exp coefficient

/-- Embedding of the notebook helper `coefficient_to_odds_ratio(coefficient)`:
its body computes `odds = math.exp(coefficient)`, prints the formatted
effect-size message carrying the odds value, and returns `None`. -/
noncomputable def coefficient_to_odds_ratio (coefficient : ℝ) : PyResult ℝ :=
  { ret := none, printed := [coefficient_odds coefficient] }

/-- C3: `coefficient_to_odds_ratio` applied to the coefficient 0 computes the
odds value 1 (no effect), and the odds value is strictly increasing in the
coefficient over all of ℝ. -/
theorem coefficient_odds_zero_and_strictMono :
    (coefficient_to_odds_ratio 0).printed = [1] ∧ StrictMono coefficient_odds := by
  constructor
  · simp [coefficient_to_odds_ratio, coefficient_odds, Real.exp_zero]
  · exact Real.exp_strictMono

/-- The map a ↦ a/(1-a) is strictly increasing on (0,1). -/
lemma div_one_sub_lt (a b : ℚ) (h0 : 0 < a) (hab : a < b) (hb : b < 1) :
    a / (1 - a) < b / (1 - b) := by
  have ha1 : 0 < 1 - a := by linarith
  have hb1 : 0 < 1 - b := by linarith
  rw [div_lt_div_iff₀ ha1 hb1]
  nlinarith

/-- The odds value printed by a call with both probabilities below 1. -/
lemma printedOdds_eq (p0 p1 : ℚ) (h01 : p0 < 1) (h11 : p1 < 1) :
    printedOdds (ate_odds_ratio p0 p1) = p1 / (1 - p1) - p0 / (1 - p0) := by
  have h1 : (1 - p1) ≠ 0 := sub_ne_zero.mpr (ne_of_gt h11)
  have h0 : (1 - p0) ≠ 0 := sub_ne_zero.mpr (ne_of_gt h01)
  simp [printedOdds, ate_odds_ratio, pydiv, h1, h0, Except.bind]

/-- C4: over p0, p1 in (0,1), the odds value computed by `ate_odds_ratio` is
(strictly) monotonically increasing in p1 at fixed p0, and (strictly)
monotonically decreasing in p0 at fixed p1. -/
theorem ate_odds_ratio_monotone :
    (∀ p0 p1 q1 : ℚ, 0 < p0 → p0 < 1 → 0 < p1 → p1 < q1 → q1 < 1 →
        printedOdds (ate_odds_ratio p0 p1) < printedOdds (ate_odds_ratio p0 q1)) ∧
    (∀ p0 q0 p1 : ℚ, 0 < p0 → p0 < q0 → q0 < 1 → 0 < p1 → p1 < 1 →
        printedOdds (ate_odds_ratio q0 p1) < printedOdds (ate_odds_ratio p0 p1)) := by
  constructor
  · intro p0 p1 q1 h00 h01 h10 h1q hq1
    rw [printedOdds_eq p0 p1 h01 (by linarith), printedOdds_eq p0 q1 h01 hq1]
    have := div_one_sub_lt p1 q1 h10 h1q hq1
    linarith
  · intro p0 q0 p1 h00 h0q hq1 h10 h11
    rw [printedOdds_eq q0 p1 hq1 h11, printedOdds_eq p0 p1 (by linarith) h11]
    have := div_one_sub_lt p0 q0 h00 h0q hq1
    linarith

/-- Witness for C4 at concrete probabilities. -/
theorem ate_odds_ratio_monotone_witness :
    printedOdds (ate_odds_ratio (1/4) (1/3)) < printedOdds (ate_odds_ratio (1/4) (1/2)) ∧
    printedOdds (ate_odds_ratio (1/4) (1/3)) < printedOdds (ate_odds_ratio (1/5) (1/3)) :=
  ⟨ate_odds_ratio_monotone.1 (1/4) (1/3) (1/2) (by norm_num) (by norm_num) (by norm_num)
      (by norm_num) (by norm_num),
    ate_odds_ratio_monotone.2 (1/5) (1/4) (1/3) (by norm_num) (by norm_num) (by norm_num)
      (by norm_num) (by norm_num)⟩

/-- The worked-example probability of finishing 8th grade without financial
aid, p0 = 0.604082: the first argument of the completed notebook's call
`ate_odds_ratio(0.604082, 0.737151)` and the subtrahend of its ATE cell
`ate = 0.737151 - 0.604082`. -/
def worked_p0 : ℚ := 604082 / 1000000

/-- The worked-example probability of finishing 8th grade with financial aid,
p1 = 0.737151: the second argument of the completed notebook's call
`ate_odds_ratio(0.604082, 0.737151)`. -/
def worked_p1 : ℚ := 737151 / 1000000

/-- The unconditional average treatment effect of the worked example, computed
as in the completed notebook's ATE cell: `ate = 0.737151 - 0.604082`. -/
def worked_ate : ℚ := worked_p1 - worked_p0

/-- C5 counterexample: at the worked inputs the odds value printed by
`ate_odds_ratio` is 66534500000/52033325191 = 1.278690… (the completed
notebook indeed prints 1.2786901424379509), which is not within
one unit in the last displayed decimal place (10⁻⁴) of the claimed 1.2789. -/
theorem ate_odds_ratio_worked_counterexample :
    ¬ |printedOdds (ate_odds_ratio worked_p0 worked_p1) - 12789/10000| ≤ 1/10000 := by
  norm_num [printedOdds, ate_odds_ratio, pydiv, worked_p0, worked_p1, Except.bind, abs_le]

/-- C5 amended: at the worked inputs the ATE is exactly 0.133069 and the odds
value printed by `ate_odds_ratio` is approximately 1.2787 (within 10⁻⁴; the
exact value is 66534500000/52033325191 ≈ 1.278690). -/
theorem ate_odds_ratio_worked_example :
    worked_ate = 133069/1000000 ∧
    |printedOdds (ate_odds_ratio worked_p0 worked_p1) - 12787/10000| ≤ 1/10000 := by
  constructor
  · norm_num [worked_ate, worked_p0, worked_p1]
  · norm_num [printedOdds, ate_odds_ratio, pydiv, worked_p0, worked_p1, Except.bind, abs_le]

/-- C10: both helpers return None — `coefficient_to_odds_ratio` returns `none`
for every coefficient, carrying its odds value only in the printed message, and
every successful `ate_odds_ratio` call returns `none` with the odds value
appearing only in the printed message — even though both docstrings promise a
returned odds ratio. -/
theorem helpers_return_none :
    (∀ c : ℝ, (coefficient_to_odds_ratio c).ret = none ∧
        (coefficient_to_odds_ratio c).printed = [coefficient_odds c]) ∧
    (∀ (p0 p1 : ℚ) (res : PyResult ℚ), ate_odds_ratio p0 p1 = Except.ok res →
        res.ret = none ∧ res.printed = [printedOdds (ate_odds_ratio p0 p1)]) := by
  refine ⟨fun c => ⟨rfl, rfl⟩, fun p0 p1 res h => ?_⟩
  by_cases h1 : (1 - p1) = 0
  · simp [ate_odds_ratio, pydiv, h1, Except.bind] at h
  · by_cases h0 : (1 - p0) = 0
    · simp [ate_odds_ratio, pydiv, h1, h0, Except.bind] at h
    · have hq : ate_odds_ratio p0 p1 =
          Except.ok { ret := none, printed := [p1 / (1 - p1) - p0 / (1 - p0)] } := by
        simp [ate_odds_ratio, pydiv, h1, h0, Except.bind]
      rw [hq] at h
      injection h with h2
      subst h2
      exact ⟨rfl, by simp [hq, printedOdds]⟩

/-- Witness for C10 at the concrete inputs c = 0 and (p0, p1) = (1/4, 1/2). -/
theorem helpers_return_none_witness :
    (coefficient_to_odds_ratio 0).ret = none ∧
    ({ ret := none, printed := [(2 : ℚ)/3] } : PyResult ℚ).ret = none :=
  ⟨(helpers_return_none.1 0).1,
    (helpers_return_none.2 (1/4) (1/2) { ret := none, printed := [(2 : ℚ)/3] }
      (by norm_num [ate_odds_ratio, pydiv, Except.bind])).1⟩

/-- Taylor bounds at the worked naive-regression coefficient 0.5773. -/
lemma exp_5773_bounds : (17811/10000 : ℝ) ≤ Real.exp (5773/10000) ∧
    Real.exp (5773/10000) ≤ 17813/10000 := by
  have hx0 : (0:ℝ) ≤ 5773/10000 := by norm_num
  have hx1 : (5773/10000:ℝ) ≤ 1 := by norm_num
  have hl := Real.sum_le_exp_of_nonneg hx0 10
  have hu := Real.exp_bound' hx0 hx1 (n := 10) (by norm_num)
  norm_num [Finset.sum_range_succ, Nat.factorial] at hl hu
  constructor <;> linarith

/-- Taylor bounds at the worked 2SLS second-stage coefficient 0.7743. -/
lemma exp_7743_bounds : (21689/10000 : ℝ) ≤ Real.exp (7743/10000) ∧
    Real.exp (7743/10000) ≤ 21691/10000 := by
  have hx0 : (0:ℝ) ≤ 7743/10000 := by norm_num
  have hx1 : (7743/10000:ℝ) ≤ 1 := by norm_num
  have hl := Real.sum_le_exp_of_nonneg hx0 10
  have hu := Real.exp_bound' hx0 hx1 (n := 10) (by norm_num)
  norm_num [Finset.sum_range_succ, Nat.factorial] at hl hu
  constructor <;> linarith

/-- C6: `coefficient_to_odds_ratio` computes the exponential of its input
coefficient; at the worked naive-regression coefficient 0.5773 the odds value
is approximately 1.7812, and at the worked 2SLS second-stage coefficient
0.7743 approximately 2.1690 (each within one unit in the last displayed
decimal place, 10⁻⁴).  The worked coefficients are the completed notebook's
fitted values (0.5773 on use_fin_aid in the naive fit, 0.7743 on
use_fin_aid_fitted in the second stage), whose printed odds there are
1.781220 and 2.168986. -/
theorem coefficient_to_odds_ratio_worked :
    |coefficient_odds (5773/10000) - 17812/10000| ≤ 1/10000 ∧
    |coefficient_odds (7743/10000) - 21690/10000| ≤ 1/10000 := by
  have h1 := exp_5773_bounds
  have h2 := exp_7743_bounds
  unfold coefficient_odds
  rw [abs_le, abs_le]
  refine ⟨⟨?_, ?_⟩, ⟨?_, ?_⟩⟩ <;> linarith [h1.1, h1.2, h2.1, h2.2]

/-- Modelled from the spec: a binomial-GLM (logistic-link) prediction is the
sigmoid 1/(1 + exp(-t)) of the row's real linear predictor t.  The statsmodels
fit/predict implementation the notebook calls is library code not under src. -/
noncomputable def glmPredictRow (linpred : ℝ) : ℝ := 1 / (1 + Real.exp (-linpred))

/-- Modelled from the spec: the derived column `use_fin_aid_fitted` holds the
stage-1 fitted probability of each row, the logistic prediction at the row's
linear predictor. -/
noncomputable def use_fin_aid_fitted (linpreds : List ℝ) : List ℝ :=
  linpreds.map glmPredictRow

/-- C7: every fitted probability stored in the derived column
`use_fin_aid_fitted` lies strictly between 0 and 1, for every row — the
sigmoid of any real linear predictor is in (0,1). -/
theorem use_fin_aid_fitted_mem_Ioo (linpreds : List ℝ) (x : ℝ)
    (hx : x ∈ use_fin_aid_fitted linpreds) : 0 < x ∧ x < 1 := by
  obtain ⟨t, ht, rfl⟩ := List.mem_map.mp hx
  have he : 0 < Real.exp (-t) := Real.exp_pos _
  unfold glmPredictRow
  constructor
  · positivity
  · rw [div_lt_one (by linarith)]
    linarith

/-- Witness for C7 on the one-row table with linear predictor 0. -/
theorem use_fin_aid_fitted_mem_Ioo_witness :
    0 < glmPredictRow 0 ∧ glmPredictRow 0 < 1 :=
  use_fin_aid_fitted_mem_Ioo [0] (glmPredictRow 0) (List.mem_singleton.mpr rfl)

/-- An observation table as loaded into `voucher_df`: named columns of
numeric data. -/
structure Table where
  cols : List (String × List ℚ)
  deriving DecidableEq

/-- The name of the derived column the first-stage cell stores. -/
def fittedColName : String := "use_fin_aid_fitted"

/-- The assignment `voucher_df[name] = data` for a fresh column name: appends
the derived column to the table. -/
def Table.addColumn (t : Table) (name : String) (data : List ℚ) : Table :=
  { cols := t.cols ++ [(name, data)] }

/-- The notebook cells that run on `voucher_df` after loading, in order:
descriptive statistics, the unconditional-ATE cells, the naive logistic
regression, the two-stage fit. -/
inductive Cell where
  | summaryStats
  | ateCells
  | naiveGlm
  | firstStage
  | secondStage
  deriving DecidableEq

/-- The column names a cell writes into `voucher_df`: only the first-stage
cell writes, storing the fitted values once. -/
def cellWrites : Cell → List String
  | Cell.firstStage => [fittedColName]
  | _ => []

/-- Effect of one cell on the table.  `predict` is the stage-1 fitted-value
routine (library code, a function of the current table); every cell except the
first-stage one only reads the table. -/
def runCell (predict : Table → List ℚ) (t : Table) : Cell → Table
  | Cell.firstStage => t.addColumn fittedColName (predict t)
  | _ => t

/-- The notebook's cell sequence. -/
def notebookCells : List Cell :=
  [Cell.summaryStats, Cell.ateCells, Cell.naiveGlm, Cell.firstStage,
    Cell.secondStage]

/-- The table as transformed by running every cell of the notebook. -/
def runPipeline (predict : Table → List ℚ) (t : Table) : Table :=
  notebookCells.foldl (runCell predict) t

/-- C8: across the pipeline the loaded table is mutated only by the single
addition of the derived column: the final table is exactly the original
columns, unchanged and in order, followed by `use_fin_aid_fitted`; and the
write trace over all cells consists of that one column name written once. -/
theorem pipeline_frame (predict : Table → List ℚ) (t : Table) :
    (runPipeline predict t).cols = t.cols ++ [(fittedColName, predict t)] ∧
    (notebookCells.map cellWrites).flatten = [fittedColName] :=
  ⟨rfl, rfl⟩

/-- The regression formulas of the notebook (left as placeholders in src). -/
inductive Formula where
  | naive
  | stage1
  | stage2
  deriving DecidableEq

/-- Modelled from the spec: the library routines the notebook calls (pandas
describe, statsmodels GLM fitting and prediction).  The spec declares the
whole computation a deterministic batch transform, so each routine is a pure
function of the table; their implementations are not under src. -/
structure Libs where
  describe : Table → List ℚ
  describeGroup : ℚ → Table → List ℚ
  glmCoeffs : Formula → Table → List ℚ
  glmPredictOn : Formula → Table → List ℚ

/-- Everything one run of the notebook reports. -/
structure RunOutputs where
  overallSummary : List ℚ
  groupSummaries : List (List ℚ)
  ateValue : ℚ
  ateOddsOutput : Except PyError (PyResult ℚ)
  naiveCoeffs : List ℚ
  stage1Coeffs : List ℚ
  stage2Coeffs : List ℚ
  finalTable : Table

/-- One full run of the notebook: descriptive statistics overall and per
treatment group, the unconditional ATE and its odds transform on the group
proportions (p0, p1) read off the table by `props`, the naive fit, and the
two-stage fit whose second stage runs on the table carrying the derived
column. -/
def runNotebook (L : Libs) (props : Table → ℚ × ℚ) (t : Table) : RunOutputs :=
  let p := props t
  let t2 := runPipeline (L.glmPredictOn Formula.stage1) t
  { overallSummary := L.describe t
    groupSummaries := [L.describeGroup 0 t, L.describeGroup 1 t]
    ateValue := p.2 - p.1
    ateOddsOutput := ate_odds_ratio p.1 p.2
    naiveCoeffs := L.glmCoeffs Formula.naive t
    stage1Coeffs := L.glmCoeffs Formula.stage1 t
    stage2Coeffs := L.glmCoeffs Formula.stage2 t2
    finalTable := t2 }

/-- C9: the full pipeline is deterministic — two runs on identical input
tables produce identical outputs: identical descriptive statistics, identical
ATE and odds values, and identical coefficient estimates in the naive and
two-stage fits. -/
theorem runNotebook_deterministic (L : Libs) (props : Table → ℚ × ℚ)
    (t1 t2 : Table) (h : t1 = t2) :
    runNotebook L props t1 = runNotebook L props t2 := by
  rw [h]

/-- Degenerate library routines used only to witness determinism. -/
def trivialLibs : Libs :=
  { describe := fun _ => []
    describeGroup := fun _ _ => []
    glmCoeffs := fun _ _ => []
    glmPredictOn := fun _ _ => [] }

/-- Witness for C9 on a concrete empty table. -/
theorem runNotebook_deterministic_witness :
    runNotebook trivialLibs (fun _ => (1/4, 1/2)) { cols := [] } =
      runNotebook trivialLibs (fun _ => (1/4, 1/2)) { cols := [] } :=
  runNotebook_deterministic trivialLibs (fun _ => (1/4, 1/2))
    { cols := [] } { cols := [] } rfl

end IVNotebook
